import Mathlib

/-!
Shallow embedding of the browser-side prediction pipeline of
`src/frontend/app.js` (Bangalore real-estate price predictor).

JavaScript numbers are modelled as exact rationals (the source only
performs field arithmetic on decimal literals and explicit roundings via
`Math.round(x * 100) / 100`, which is `fun x => round (x * 100) / 100`
here; Mathlib `round x = ⌊x + 1/2⌋` matches `Math.round`).  Calls to
`Math.random()` are modelled by explicit parameters, each assumed to lie
in the unit interval where a theorem needs it.  DOM and Leaflet effects
are modelled as explicit state passing on record types; popup texts,
tile layers and viewport moves (`fitBounds` / `setView`) carry no marker
state and are not tracked.
-/

/-- PredictionRequest, the form payload built in `handleFormSubmit`. -/
structure PredictionRequest where
  location : String
  total_sqft : ℚ
  bhk : ℤ
  bath : ℤ
  balcony : ℤ
  area_type : String
deriving DecidableEq

/-- Coordinate pair as carried in a prediction result. -/
structure Coordinates where
  latitude : ℚ
  longitude : ℚ
deriving DecidableEq

/-- Confidence interval of a prediction result. -/
structure ConfidenceInterval where
  lower : ℚ
  upper : ℚ
deriving DecidableEq

/-- Comparable property entry, as produced in `generateMockComparables`. -/
structure Comparable where
  location : String
  bhk : ℤ
  total_sqft : ℚ
  price_per_sqft : ℚ
  distance_km : ℚ
  latitude : ℚ
  longitude : ℚ
deriving DecidableEq

/-- PredictionResult, the shape consumed by `displayResults`/`updateMap`. -/
structure PredictionResult where
  success : Bool
  location : String
  coordinates : Coordinates
  predicted_price_per_sqft : ℚ
  total_estimated_price : ℚ
  total_estimated_price_formatted : String
  confidence_interval : ConfidenceInterval
  nearby_comparables : List Comparable
deriving DecidableEq

/-- Model of `Math.round(x * 100) / 100`: round to two decimal places. -/
def round2 (x : ℚ) : ℚ := ((round (x * 100) : ℤ) : ℚ) / 100

/-- Model of `Number.prototype.toFixed(2)` on a rational value. -/
def toFixed2 (x : ℚ) : String :=
  let n : ℤ := round (x * 100)
  let a : ℕ := n.natAbs
  (if n < 0 then "-" else "") ++ toString (a / 100) ++ "." ++
    (if a % 100 < 10 then "0" else "") ++ toString (a % 100)

/-- Helper for `containsChars`: does the haystack start with the needle. -/
def startsWithChars : List Char → List Char → Bool
  | _, [] => true
  | [], _ :: _ => false
  | h :: hs, n :: ns => h == n && startsWithChars hs ns

/-- Substring test on character lists (semantics of JS `String.includes`,
in particular the empty needle is contained in every string). -/
def containsChars : List Char → List Char → Bool
  | [], needle => needle.isEmpty
  | h :: hs, needle => startsWithChars (h :: hs) needle || containsChars hs needle

/-- Model of `hay.includes(needle)` for JS strings. -/
def jsIncludes (hay needle : String) : Bool := containsChars hay.data needle.data

/-- Model of JS `toLowerCase` (ASCII, which covers every table key):
per-character lowercasing. -/
def jsToLower (s : String) : String := String.mk (s.data.map Char.toLower)

/-- The fixed locality table of `getMockCoordinates`, in source order. -/
def locationMap : List (String × ℚ × ℚ) :=
  [("Whitefield", 12.9698, 77.7500),
   ("Koramangala", 12.9349, 77.6175),
   ("Electronic City", 12.8399, 77.6770),
   ("HSR Layout", 12.9122, 77.6414),
   ("Marathahalli", 12.9591, 77.6971),
   ("Indiranagar", 12.9719, 77.6412),
   ("Jayanagar", 12.9250, 77.5820),
   ("Hebbal", 13.0358, 77.5970),
   ("Sarjapur Road", 12.9087, 77.6857),
   ("Bellandur", 12.9261, 77.6798),
   ("JP Nagar", 12.9064, 77.5857),
   ("Bannerghatta Road", 12.8879, 77.5967)]

/-- The matching loop of `getMockCoordinates`: first table entry whose key
contains the lowercased query, or is contained in it, case-insensitively. -/
def resolveLocation (location : String) : Option (ℚ × ℚ) :=
  let normalizedLoc := jsToLower location
  locationMap.findSome? fun e =>
    if jsIncludes (jsToLower e.1) normalizedLoc || jsIncludes normalizedLoc (jsToLower e.1) then
      some e.2
    else none

/-- Model of `getMockCoordinates`; `r1`, `r2` are the two `Math.random()`
draws of the fallback branch (used only when no table entry matches). -/
def getMockCoordinates (location : String) (r1 r2 : ℚ) : ℚ × ℚ :=
  match resolveLocation location with
  | some coords => coords
  | none => (12.9716 + (r1 - 0.5) * 0.15, 77.5946 + (r2 - 0.5) * 0.15)

/-- The five `Math.random()` draws used for one synthetic comparable. -/
structure CompRand where
  rSqft : ℚ
  rPrice : ℚ
  rDist : ℚ
  rLat : ℚ
  rLng : ℚ
deriving DecidableEq

/-- All five draws of a `CompRand` lie in the unit interval. -/
def CompRandInRange (r : CompRand) : Prop :=
  0 ≤ r.rSqft ∧ r.rSqft ≤ 1 ∧ 0 ≤ r.rPrice ∧ r.rPrice ≤ 1 ∧ 0 ≤ r.rDist ∧
    r.rDist ≤ 1 ∧ 0 ≤ r.rLat ∧ r.rLat ≤ 1 ∧ 0 ≤ r.rLng ∧ r.rLng ≤ 1

instance (r : CompRand) : Decidable (CompRandInRange r) := by
  unfold CompRandInRange; infer_instance

/-- The loop body of `generateMockComparables` for one index. -/
def mkComparable (coords : ℚ × ℚ) (bhk : ℤ) (name : String) (r : CompRand) : Comparable :=
  { location := name
    bhk := bhk
    total_sqft := 1000 + ((round (r.rSqft * 1000) : ℤ) : ℚ)
    price_per_sqft := 5000 + ((round (r.rPrice * 3000) : ℤ) : ℚ)
    distance_km := ((round ((0.5 + r.rDist * 2) * 10) : ℤ) : ℚ) / 10
    latitude := coords.1 + (r.rLat - 0.5) * 0.02
    longitude := coords.2 + (r.rLng - 0.5) * 0.02 }

/-- The fixed comparable names used by the loop, in index order. -/
def compLocations : List String := ["Near Location", "Nearby Area", "Close By", "Adjacent"]

/-- Model of `generateMockComparables`: four synthetic entries, then the
stable ascending sort by `distance_km` (JS `sort` with the numeric
comparator). -/
def generateMockComparables (coords : ℚ × ℚ) (bhk : ℤ) (rs : Fin 4 → CompRand) :
    List Comparable :=
  List.mergeSort
    ((List.finRange 4).map fun i => mkComparable coords bhk (compLocations.getD i.val "") (rs i))
    (fun a b => decide (a.distance_km ≤ b.distance_km))

/-- All `Math.random()` draws consumed by one `generateMockPrediction` call. -/
structure MockRand where
  rPrice : ℚ
  rLoc1 : ℚ
  rLoc2 : ℚ
  comps : Fin 4 → CompRand

/-- The unrounded `pricePerSqft` computed in `generateMockPrediction`. -/
def mockPricePerSqft (formData : PredictionRequest) (r : ℚ) : ℚ :=
  let basePrice : ℚ := 6500
  let bhkMultiplier : ℚ := 1 + ((formData.bhk : ℚ) - 2) * 0.15
  let sizeMultiplier : ℚ :=
    if formData.total_sqft < 1000 then 1.1 else if formData.total_sqft > 2000 then 0.9 else 1
  basePrice * bhkMultiplier * sizeMultiplier + (r - 0.5) * 1000

/-- Model of `generateMockPrediction`. -/
def generateMockPrediction (formData : PredictionRequest) (rnd : MockRand) : PredictionResult :=
  let mockCoords := getMockCoordinates formData.location rnd.rLoc1 rnd.rLoc2
  let pricePerSqft := mockPricePerSqft formData rnd.rPrice
  let totalPrice := pricePerSqft * formData.total_sqft
  { success := true
    location := formData.location
    coordinates := { latitude := mockCoords.1, longitude := mockCoords.2 }
    predicted_price_per_sqft := round2 pricePerSqft
    total_estimated_price := round2 totalPrice
    total_estimated_price_formatted := "₹" ++ toFixed2 (totalPrice / 100000) ++ " Lakhs"
    confidence_interval :=
      { lower := round2 (pricePerSqft * 0.85), upper := round2 (pricePerSqft * 1.15) }
    nearby_comparables := generateMockComparables mockCoords formData.bhk rnd.comps }

/-- A Leaflet marker as far as marker bookkeeping is concerned: its
position, plus an identity tag distinguishing distinct `L.marker` objects
(two markers at equal positions are still different layers). -/
structure Marker where
  id : ℕ
  lat : ℚ
  lng : ℚ
deriving DecidableEq

/-- The module-level map state of `app.js`: the Leaflet layer set, the
`markers` array of comparable markers, and the `predictionMarker`
variable.  `nextId` is the supply of fresh marker identities. -/
structure MapState where
  nextId : ℕ
  layers : List Marker
  markers : List Marker
  predictionMarker : Option Marker
deriving DecidableEq

/-- Model of `initMap` + `addCenterMarker`: one pulsing marker at
`CONFIG.BANGALORE_CENTER`, stored in `predictionMarker`. -/
def initMap : MapState :=
  let m : Marker := { id := 0, lat := 12.9716, lng := 77.5946 }
  { nextId := 1, layers := [m], markers := [], predictionMarker := some m }

/-- Model of `clearMarkers`: remove each element of `markers` from the
map, empty the array, then remove and null out `predictionMarker`. -/
def clearMarkers (s : MapState) : MapState :=
  let layers1 := s.markers.foldl (fun acc m => acc.erase m) s.layers
  let s1 : MapState := { s with layers := layers1, markers := [] }
  match s.predictionMarker with
  | some pm => { s1 with layers := s1.layers.erase pm, predictionMarker := none }
  | none => s1

/-- The comparable-marker loop of `updateMap`: for each comparable, add a
marker to the map and push it onto `markers`. -/
def addComparableMarkers (s : MapState) (comps : List Comparable) : MapState :=
  comps.foldl
    (fun st comp =>
      let m : Marker := { id := st.nextId, lat := comp.latitude, lng := comp.longitude }
      { st with nextId := st.nextId + 1, layers := st.layers ++ [m],
                markers := st.markers ++ [m] })
    s

/-- Model of `updateMap`: clear all markers, place the prediction marker
at the result coordinates, then the comparable markers.  The final
`fitBounds`/`setView` only moves the viewport and is not tracked. -/
def updateMap (s : MapState) (result : PredictionResult) : MapState :=
  let s1 := clearMarkers s
  let pm : Marker :=
    { id := s1.nextId, lat := result.coordinates.latitude, lng := result.coordinates.longitude }
  let s2 : MapState :=
    { s1 with nextId := s1.nextId + 1, layers := s1.layers ++ [pm], predictionMarker := some pm }
  addComparableMarkers s2 result.nearby_comparables

/-- Map-state invariant: the layers on the map are exactly the optional
prediction marker followed by the `markers` array, marker identities are
pairwise distinct, and all identities are below the fresh supply. -/
def MapInv (s : MapState) : Prop :=
  s.layers = s.predictionMarker.toList ++ s.markers ∧
    (s.layers.map Marker.id).Nodup ∧ ∀ m ∈ s.layers, m.id < s.nextId

/-- The DOM fields written by `displayResults`. -/
structure DisplayState where
  resultsHidden : Bool
  totalPriceText : String
  pricePerSqft : ℚ
  ciLower : ℚ
  ciUpper : ℚ
  comparablesList : List Comparable
  placeholderShown : Bool
deriving DecidableEq

/-- Whole-page state: display fields, map state, loading overlay. -/
structure AppState where
  display : DisplayState
  mapState : MapState
  loadingShown : Bool
deriving DecidableEq

/-- Model of `showLoading`. -/
def showLoading (s : AppState) (flag : Bool) : AppState := { s with loadingShown := flag }

/-- Model of `displayResults`: unhide the results section, write the
price fields and the confidence bounds, and rebuild the comparables list
(or show the placeholder when it is empty).  It touches only the display
fields. -/
def displayResults (s : AppState) (result : PredictionResult) : AppState :=
  { s with display :=
    { resultsHidden := false
      totalPriceText := result.total_estimated_price_formatted
      pricePerSqft := result.predicted_price_per_sqft
      ciLower := result.confidence_interval.lower
      ciUpper := result.confidence_interval.upper
      comparablesList := result.nearby_comparables
      placeholderShown := result.nearby_comparables.isEmpty } }

/-- Lift of `updateMap` to the page state. -/
def updateMapApp (s : AppState) (result : PredictionResult) : AppState :=
  { s with mapState := updateMap s.mapState result }

/-- Outcome of the `fetch` in `predictPrice`.  The three non-`ok` cases
are exactly the three failure modes caught by the `try`/`catch`. -/
inductive BackendResponse where
  | networkError : BackendResponse
  | httpError (status : ℕ) (detail : String) : BackendResponse
  | unparseableBody : BackendResponse
  | ok (result : PredictionResult) : BackendResponse

/-- Whether the backend call fails (anything but a parseable 2xx). -/
def BackendResponse.isFailure : BackendResponse → Bool
  | .ok _ => false
  | _ => true

/-- The result that ends up rendered: the backend result on success,
otherwise the mock prediction. -/
def renderedResult (formData : PredictionRequest) (resp : BackendResponse)
    (rnd : MockRand) : PredictionResult :=
  match resp with
  | .ok result => result
  | _ => generateMockPrediction formData rnd

/-- Model of `predictPrice`: show the loading overlay, then on success
display and map the backend result, on any failure display and map the
mock prediction, and finally hide the overlay. -/
def predictPrice (s : AppState) (formData : PredictionRequest) (resp : BackendResponse)
    (rnd : MockRand) : AppState :=
  let s1 := showLoading s true
  let s2 :=
    match resp with
    | .ok result => updateMapApp (displayResults s1 result) result
    | _ =>
      let mockResult := generateMockPrediction formData rnd
      updateMapApp (displayResults s1 mockResult) mockResult
  showLoading s2 false

/-- Concrete request used by witnesses (the worked example of the spec). -/
def koramangalaRequest : PredictionRequest :=
  { location := "Koramangala", total_sqft := 1500, bhk := 3, bath := 2, balcony := 1,
    area_type := "Super built-up" }

/-- Concrete random draws used by witnesses: every draw is `1/2`. -/
def halfComp : CompRand :=
  { rSqft := 1/2, rPrice := 1/2, rDist := 1/2, rLat := 1/2, rLng := 1/2 }

/-- Concrete random bundle used by witnesses. -/
def halfRand : MockRand :=
  { rPrice := 1/2, rLoc1 := 1/2, rLoc2 := 1/2, comps := fun _ => halfComp }

/-- Empty display state, used to build concrete page states. -/
def blankDisplay : DisplayState :=
  { resultsHidden := true, totalPriceText := "", pricePerSqft := 0, ciLower := 0, ciUpper := 0,
    comparablesList := [], placeholderShown := false }

/-- The page state right after initialization. -/
def initialAppState : AppState :=
  { display := blankDisplay, mapState := initMap, loadingShown := false }

/-- Concrete prediction results used by witnesses. -/
def simpleComparable : Comparable :=
  { location := "Nearby Area", bhk := 2, total_sqft := 1200, price_per_sqft := 6000,
    distance_km := 1, latitude := 13, longitude := 77 }

/-- A concrete backend-shaped result with no comparables. -/
def simpleResult1 : PredictionResult :=
  { success := true, location := "A", coordinates := { latitude := 13, longitude := 78 },
    predicted_price_per_sqft := 7000, total_estimated_price := 7000000,
    total_estimated_price_formatted := "₹70.00 Lakhs",
    confidence_interval := { lower := 5950, upper := 8050 }, nearby_comparables := [] }

/-- A concrete backend-shaped result with one comparable. -/
def simpleResult2 : PredictionResult :=
  { success := true, location := "B", coordinates := { latitude := 13, longitude := 77 },
    predicted_price_per_sqft := 6000, total_estimated_price := 6000000,
    total_estimated_price_formatted := "₹60.00 Lakhs",
    confidence_interval := { lower := 5100, upper := 6900 },
    nearby_comparables := [simpleComparable] }

/-! Helper lemmas about rounding. -/

lemma round_mono_q {x y : ℚ} (h : x ≤ y) : round x ≤ round y := by
  rw [round_eq, round_eq]
  exact Int.floor_mono (by linarith)

lemma round2_mono {x y : ℚ} (h : x ≤ y) : round2 x ≤ round2 y := by
  unfold round2
  have h1 : round (x * 100) ≤ round (y * 100) := round_mono_q (by linarith)
  have h2 : ((round (x * 100) : ℤ) : ℚ) ≤ ((round (y * 100) : ℤ) : ℚ) := by exact_mod_cast h1
  linarith

lemma round2_intCast (n : ℤ) : round2 ((n : ℚ)) = n := by
  unfold round2
  have h : ((n : ℚ)) * 100 = ((n * 100 : ℤ) : ℚ) := by push_cast; ring
  rw [h, round_intCast]
  push_cast
  ring

lemma abs_round2_sub (x : ℚ) : |round2 x - x| ≤ 1/200 := by
  unfold round2
  have h : |(((round (x * 100) : ℤ) : ℚ)) - x * 100| ≤ 1/2 := by
    rw [abs_sub_comm]
    exact abs_sub_round (x * 100)
  have h2 : ((round (x * 100) : ℤ) : ℚ) / 100 - x =
      ((((round (x * 100) : ℤ) : ℚ)) - x * 100) / 100 := by ring
  rw [h2, abs_div]
  rw [show |(100 : ℚ)| = 100 by norm_num]
  linarith [abs_nonneg ((((round (x * 100) : ℤ) : ℚ)) - x * 100)]

lemma intCast_le_round {x : ℚ} {a : ℤ} (h : (a : ℚ) ≤ x) : a ≤ round x := by
  have := round_mono_q h
  rwa [round_intCast] at this

lemma round_le_intCast {x : ℚ} {b : ℤ} (h : x ≤ (b : ℚ)) : round x ≤ b := by
  have := round_mono_q h
  rwa [round_intCast] at this

/-! Helper lemmas about marker bookkeeping. -/

lemma foldl_erase_append (l front : List Marker)
    (h : ((front ++ l).map Marker.id).Nodup) :
    l.foldl (fun acc m => acc.erase m) (front ++ l) = front := by
  induction l generalizing front with
  | nil => simp
  | cons m rest ih =>
    have hmap : (front ++ m :: rest).map Marker.id =
        front.map Marker.id ++ m.id :: rest.map Marker.id := by simp
    rw [hmap] at h
    have hdisj : (front.map Marker.id).Disjoint (m.id :: rest.map Marker.id) :=
      (List.nodup_append.mp h).2.2
    have hmfront : m ∉ front := by
      intro hmem
      exact hdisj (List.mem_map_of_mem Marker.id hmem) (List.mem_cons_self _ _)
    have hstep : (front ++ m :: rest).erase m = front ++ rest := by
      rw [List.erase_append_right _ hmfront, List.erase_cons_head]
    have hsub : List.Sublist ((front ++ rest).map Marker.id)
        (front.map Marker.id ++ m.id :: rest.map Marker.id) := by
      have h2 := ((List.sublist_cons_self m rest).append_left front).map Marker.id
      simp only [List.map_append, List.map_cons] at h2 ⊢
      exact h2
    have hrest : ((front ++ rest).map Marker.id).Nodup := h.sublist hsub
    rw [List.foldl_cons, hstep]
    exact ih front hrest

lemma clearMarkers_of_inv {s : MapState} (h : MapInv s) :
    clearMarkers s =
      { nextId := s.nextId, layers := [], markers := [], predictionMarker := none } := by
  obtain ⟨hlay, hnodup, _⟩ := h
  unfold clearMarkers
  cases hpm : s.predictionMarker with
  | none =>
    rw [hpm] at hlay
    simp only [Option.toList_none, List.nil_append] at hlay
    have : s.markers.foldl (fun acc m => acc.erase m) s.layers = [] := by
      rw [hlay]
      have := foldl_erase_append s.markers [] (by rw [← hlay]; simpa using hnodup)
      simpa using this
    simp [this]
  | some pm =>
    rw [hpm] at hlay
    simp only [Option.toList_some] at hlay
    have hfold : s.markers.foldl (fun acc m => acc.erase m) s.layers = [pm] := by
      rw [hlay]
      exact foldl_erase_append s.markers [pm] (by rw [← hlay]; exact hnodup)
    simp [hfold]

lemma addComparableMarkers_spec (comps : List Comparable) (s : MapState) (h : MapInv s) :
    MapInv (addComparableMarkers s comps) ∧
      (addComparableMarkers s comps).predictionMarker = s.predictionMarker ∧
      (addComparableMarkers s comps).markers.length = s.markers.length + comps.length ∧
      s.nextId ≤ (addComparableMarkers s comps).nextId := by
  induction comps generalizing s with
  | nil => simpa [addComparableMarkers] using h
  | cons c rest ih =>
    set m : Marker := { id := s.nextId, lat := c.latitude, lng := c.longitude } with hm
    set s1 : MapState :=
      { s with nextId := s.nextId + 1, layers := s.layers ++ [m],
               markers := s.markers ++ [m] } with hs1
    have hstep : addComparableMarkers s (c :: rest) = addComparableMarkers s1 rest := rfl
    obtain ⟨hlay, hnodup, hbound⟩ := h
    have hmid : m.id ∉ s.layers.map Marker.id := by
      intro hmem
      obtain ⟨m', hm', hid⟩ := List.mem_map.mp hmem
      have hlt : m'.id < s.nextId := hbound m' hm'
      have heq : m.id = s.nextId := rfl
      omega
    have h1 : MapInv s1 := by
      refine ⟨?_, ?_, ?_⟩
      · show s.layers ++ [m] = s.predictionMarker.toList ++ (s.markers ++ [m])
        rw [hlay, List.append_assoc]
      · show ((s.layers ++ [m]).map Marker.id).Nodup
        rw [List.map_append]
        exact List.Nodup.append hnodup (by simp) (by simpa using hmid)
      · intro m' hm'
        show m'.id < s.nextId + 1
        rcases List.mem_append.mp hm' with hin | hin
        · exact Nat.lt_succ_of_lt (hbound m' hin)
        · simp only [List.mem_singleton] at hin
          subst hin
          exact Nat.lt_succ_self _
    obtain ⟨ha, hb, hc, hd⟩ := ih s1 h1
    rw [hstep]
    refine ⟨ha, hb, ?_, ?_⟩
    · rw [hc]
      show (s.markers ++ [m]).length + rest.length = s.markers.length + (rest.length + 1)
      simp [Nat.add_assoc, Nat.add_comm 1]
    · exact Nat.le_trans (Nat.le_succ _) hd

lemma updateMap_spec {s : MapState} (r : PredictionResult) (h : MapInv s) :
    MapInv (updateMap s r) ∧
      (updateMap s r).predictionMarker =
        some { id := s.nextId, lat := r.coordinates.latitude,
               lng := r.coordinates.longitude } ∧
      (updateMap s r).markers.length = r.nearby_comparables.length := by
  have hclear := clearMarkers_of_inv h
  set pm : Marker :=
    { id := s.nextId, lat := r.coordinates.latitude, lng := r.coordinates.longitude } with hpm
  have hstep : updateMap s r =
      addComparableMarkers
        { nextId := s.nextId + 1, layers := [pm], markers := [],
          predictionMarker := some pm } r.nearby_comparables := by
    unfold updateMap
    rw [hclear]
    rfl
  have h2 : MapInv
      { nextId := s.nextId + 1, layers := [pm], markers := [],
        predictionMarker := some pm } := by
    refine ⟨rfl, by simp, ?_⟩
    intro m' hm'
    simp only [List.mem_singleton] at hm'
    subst hm'
    exact Nat.lt_succ_self _
  obtain ⟨ha, hb, hc, _⟩ := addComparableMarkers_spec r.nearby_comparables _ h2
  rw [hstep]
  exact ⟨ha, hb, by simpa using hc⟩

/-- C8: after two consecutive `updateMap` calls with results `r1` then
`r2`, starting from any consistent map state (in particular the
initialized map, whose center marker sits in `predictionMarker`), the map
layers are exactly one prediction marker at the coordinates of `r2`
followed by one marker per comparable of `r2`: each call clears every
previously placed marker before placing new ones. -/
theorem updateMap_twice_markers (s : MapState) (r1 r2 : PredictionResult) (h : MapInv s) :
    ∃ pm : Marker,
      (updateMap (updateMap s r1) r2).predictionMarker = some pm ∧
      pm.lat = r2.coordinates.latitude ∧ pm.lng = r2.coordinates.longitude ∧
      (updateMap (updateMap s r1) r2).markers.length = r2.nearby_comparables.length ∧
      (updateMap (updateMap s r1) r2).layers =
        pm :: (updateMap (updateMap s r1) r2).markers := by
  obtain ⟨h1inv, _, _⟩ := updateMap_spec r1 h
  obtain ⟨h2inv, h2pm, h2len⟩ := updateMap_spec r2 h1inv
  refine ⟨_, h2pm, rfl, rfl, h2len, ?_⟩
  have hlay := h2inv.1
  rw [h2pm] at hlay
  simpa using hlay

/-- Witness for C8 at the freshly initialized map and two concrete
results. -/
theorem updateMap_twice_markers_witness :
    MapInv initMap ∧
      ∃ pm : Marker,
        (updateMap (updateMap initMap simpleResult1) simpleResult2).predictionMarker = some pm ∧
        pm.lat = simpleResult2.coordinates.latitude ∧
        pm.lng = simpleResult2.coordinates.longitude ∧
        (updateMap (updateMap initMap simpleResult1) simpleResult2).markers.length =
          simpleResult2.nearby_comparables.length ∧
        (updateMap (updateMap initMap simpleResult1) simpleResult2).layers =
          pm :: (updateMap (updateMap initMap simpleResult1) simpleResult2).markers := by
  have hinv : MapInv initMap := ⟨rfl, by simp [initMap], by simp [initMap]⟩
  exact ⟨hinv, updateMap_twice_markers initMap simpleResult1 simpleResult2 hinv⟩

/-- C1: when the backend call fails in any of the three ways, the
prediction flow falls back to the mock estimator, renders that mock
result (results section unhidden, map updated with it), the mock result
is well-formed (`success` set, all fields present, four comparables),
and no error state is produced: the loading overlay is hidden on exit. -/
theorem fallback_renders_mock_result (s : AppState) (formData : PredictionRequest)
    (resp : BackendResponse) (rnd : MockRand) (h : resp.isFailure = true) :
    predictPrice s formData resp rnd =
      showLoading
        (updateMapApp
          (displayResults (showLoading s true) (generateMockPrediction formData rnd))
          (generateMockPrediction formData rnd)) false ∧
      (generateMockPrediction formData rnd).success = true ∧
      (generateMockPrediction formData rnd).nearby_comparables.length = 4 ∧
      (predictPrice s formData resp rnd).loadingShown = false ∧
      (predictPrice s formData resp rnd).display.resultsHidden = false := by
  have hlen : (generateMockPrediction formData rnd).nearby_comparables.length = 4 := by
    simp [generateMockPrediction, generateMockComparables]
  cases resp with
  | ok r => exact absurd h (by simp [BackendResponse.isFailure])
  | networkError => exact ⟨rfl, rfl, hlen, rfl, rfl⟩
  | httpError status detail => exact ⟨rfl, rfl, hlen, rfl, rfl⟩
  | unparseableBody => exact ⟨rfl, rfl, hlen, rfl, rfl⟩

/-- Witness for C1 at a concrete failing response. -/
theorem fallback_renders_mock_result_witness :
    BackendResponse.networkError.isFailure = true ∧
      predictPrice initialAppState koramangalaRequest BackendResponse.networkError halfRand =
        showLoading
          (updateMapApp
            (displayResults (showLoading initialAppState true)
              (generateMockPrediction koramangalaRequest halfRand))
            (generateMockPrediction koramangalaRequest halfRand)) false ∧
      (generateMockPrediction koramangalaRequest halfRand).success = true ∧
      (generateMockPrediction koramangalaRequest halfRand).nearby_comparables.length = 4 ∧
      (predictPrice initialAppState koramangalaRequest BackendResponse.networkError
        halfRand).loadingShown = false ∧
      (predictPrice initialAppState koramangalaRequest BackendResponse.networkError
        halfRand).display.resultsHidden = false :=
  ⟨rfl, fallback_renders_mock_result initialAppState koramangalaRequest
    BackendResponse.networkError halfRand rfl⟩

/-- C9 counterexample: the result renderer `displayResults` does not
update the map.  At a concrete state and result, `displayResults` leaves
the map state unchanged, while a genuine map render at the same input
does change it — so rendering a result does not update the map "as part
of the Result Renderer itself". -/
theorem displayResults_leaves_map_unchanged :
    (displayResults initialAppState simpleResult2).mapState = initialAppState.mapState ∧
      (updateMapApp initialAppState simpleResult2).mapState ≠ initialAppState.mapState := by
  refine ⟨rfl, ?_⟩
  intro hEq
  have hinv : MapInv initMap := ⟨rfl, by simp [initMap], by simp [initMap]⟩
  obtain ⟨_, hpm, _⟩ := updateMap_spec simpleResult2 hinv
  have hEq2 : updateMap initMap simpleResult2 = initMap := hEq
  have h3 := congrArg MapState.predictionMarker hEq2
  rw [hpm] at h3
  simp [initMap] at h3

/-- C9 amended: the Result Renderer (`displayResults`) writes the display
fields and rebuilds the comparables list but does not invoke the Map
Renderer; instead the Prediction Client (`predictPrice`) invokes
`displayResults` and then `updateMap` on the same rendered result, so the
map is updated on every render by the caller, not by the Result Renderer. -/
theorem render_pipeline_client_invokes_map (s : AppState) (formData : PredictionRequest)
    (resp : BackendResponse) (rnd : MockRand) :
    (displayResults s (renderedResult formData resp rnd)).mapState = s.mapState ∧
      predictPrice s formData resp rnd =
        showLoading
          (updateMapApp
            (displayResults (showLoading s true) (renderedResult formData resp rnd))
            (renderedResult formData resp rnd)) false := by
  refine ⟨rfl, ?_⟩
  cases resp <;> rfl

lemma mockPricePerSqft_nonneg (formData : PredictionRequest) {r : ℚ}
    (hbhk : 0 ≤ formData.bhk) (hr0 : 0 ≤ r) : 0 ≤ mockPricePerSqft formData r := by
  unfold mockPricePerSqft
  have hb : (0 : ℚ) ≤ (formData.bhk : ℚ) := by exact_mod_cast hbhk
  split_ifs <;> nlinarith [hb, hr0]

/-- C2: the mock estimator returns the two-decimal roundings of
`pricePerSqft`, `pricePerSqft*0.85` and `pricePerSqft*1.15` as point
estimate and confidence bounds, and these satisfy
`lower ≤ predicted ≤ upper`. -/
theorem mock_confidence_interval_bounds (formData : PredictionRequest) (rnd : MockRand)
    (_hsq : 0 < formData.total_sqft) (hbhk : 0 ≤ formData.bhk)
    (hr0 : 0 ≤ rnd.rPrice) (_hr1 : rnd.rPrice ≤ 1) :
    (generateMockPrediction formData rnd).confidence_interval.lower =
        round2 (mockPricePerSqft formData rnd.rPrice * 0.85) ∧
      (generateMockPrediction formData rnd).confidence_interval.upper =
        round2 (mockPricePerSqft formData rnd.rPrice * 1.15) ∧
      (generateMockPrediction formData rnd).predicted_price_per_sqft =
        round2 (mockPricePerSqft formData rnd.rPrice) ∧
      (generateMockPrediction formData rnd).confidence_interval.lower ≤
        (generateMockPrediction formData rnd).predicted_price_per_sqft ∧
      (generateMockPrediction formData rnd).predicted_price_per_sqft ≤
        (generateMockPrediction formData rnd).confidence_interval.upper := by
  have hp : 0 ≤ mockPricePerSqft formData rnd.rPrice := mockPricePerSqft_nonneg _ hbhk hr0
  refine ⟨rfl, rfl, rfl, ?_, ?_⟩
  · show round2 (mockPricePerSqft formData rnd.rPrice * 0.85) ≤
      round2 (mockPricePerSqft formData rnd.rPrice)
    exact round2_mono (by nlinarith [hp])
  · show round2 (mockPricePerSqft formData rnd.rPrice) ≤
      round2 (mockPricePerSqft formData rnd.rPrice * 1.15)
    exact round2_mono (by nlinarith [hp])

/-- Witness for C2 at the worked example request and midpoint draws. -/
theorem mock_confidence_interval_bounds_witness :
    (0 : ℚ) < koramangalaRequest.total_sqft ∧ (0 : ℤ) ≤ koramangalaRequest.bhk ∧
      (0 : ℚ) ≤ halfRand.rPrice ∧ halfRand.rPrice ≤ 1 ∧
      (generateMockPrediction koramangalaRequest halfRand).confidence_interval.lower ≤
        (generateMockPrediction koramangalaRequest halfRand).predicted_price_per_sqft ∧
      (generateMockPrediction koramangalaRequest halfRand).predicted_price_per_sqft ≤
        (generateMockPrediction koramangalaRequest halfRand).confidence_interval.upper := by
  have h1 : (0 : ℚ) < koramangalaRequest.total_sqft := by norm_num [koramangalaRequest]
  have h2 : (0 : ℤ) ≤ koramangalaRequest.bhk := by norm_num [koramangalaRequest]
  have h3 : (0 : ℚ) ≤ halfRand.rPrice := by norm_num [halfRand]
  have h4 : halfRand.rPrice ≤ 1 := by norm_num [halfRand]
  obtain ⟨_, _, _, ha, hb⟩ :=
    mock_confidence_interval_bounds koramangalaRequest halfRand h1 h2 h3 h4
  exact ⟨h1, h2, h3, h4, ha, hb⟩

/-- C3: the mock point estimate is the two-decimal rounding of
`6500 * bhkMultiplier * sizeMultiplier + j` for some jitter
`j ∈ [-500, 500]`; at the worked Koramangala example the estimate lies
within 500 of 7475 and the coordinates are exactly `[12.9349, 77.6175]`. -/
theorem mock_price_formula (formData : PredictionRequest) (rnd : MockRand)
    (hr0 : 0 ≤ rnd.rPrice) (hr1 : rnd.rPrice ≤ 1) :
    (∃ j : ℚ, -500 ≤ j ∧ j ≤ 500 ∧
      (generateMockPrediction formData rnd).predicted_price_per_sqft =
        round2 (6500 * (1 + ((formData.bhk : ℚ) - 2) * 0.15) *
          (if formData.total_sqft < 1000 then 1.1
           else if formData.total_sqft > 2000 then 0.9 else 1) + j)) ∧
    (formData.location = "Koramangala" → formData.total_sqft = 1500 → formData.bhk = 3 →
      |(generateMockPrediction formData rnd).predicted_price_per_sqft - 7475| ≤ 500 ∧
      (generateMockPrediction formData rnd).coordinates =
        { latitude := 12.9349, longitude := 77.6175 }) := by
  constructor
  · refine ⟨(rnd.rPrice - 0.5) * 1000, by nlinarith [hr0], by nlinarith [hr1], rfl⟩
  · intro hloc hsq hbhk
    constructor
    · have hval : mockPricePerSqft formData rnd.rPrice = 7475 + (rnd.rPrice - 0.5) * 1000 := by
        unfold mockPricePerSqft
        rw [hsq, hbhk]
        norm_num
      have harg1 : (((6975 : ℤ) : ℚ)) ≤ mockPricePerSqft formData rnd.rPrice := by
        rw [hval]; push_cast; nlinarith [hr0]
      have harg2 : mockPricePerSqft formData rnd.rPrice ≤ (((7975 : ℤ) : ℚ)) := by
        rw [hval]; push_cast; nlinarith [hr1]
      have hlo := round2_mono harg1
      have hhi := round2_mono harg2
      rw [round2_intCast] at hlo hhi
      have hlo2 : (6975 : ℚ) ≤ round2 (mockPricePerSqft formData rnd.rPrice) := by
        exact_mod_cast hlo
      have hhi2 : round2 (mockPricePerSqft formData rnd.rPrice) ≤ (7975 : ℚ) := by
        exact_mod_cast hhi
      show |round2 (mockPricePerSqft formData rnd.rPrice) - 7475| ≤ 500
      rw [abs_le]
      constructor <;> linarith
    · show ({ latitude := (getMockCoordinates formData.location rnd.rLoc1 rnd.rLoc2).1,
              longitude := (getMockCoordinates formData.location rnd.rLoc1 rnd.rLoc2).2 }
            : Coordinates) = { latitude := 12.9349, longitude := 77.6175 }
      rw [hloc]
      rfl

/-- Witness for C3 at the worked example request and midpoint draws. -/
theorem mock_price_formula_witness :
    (0 : ℚ) ≤ halfRand.rPrice ∧ halfRand.rPrice ≤ 1 ∧
      koramangalaRequest.location = "Koramangala" ∧ koramangalaRequest.total_sqft = 1500 ∧
      koramangalaRequest.bhk = 3 ∧
      |(generateMockPrediction koramangalaRequest halfRand).predicted_price_per_sqft - 7475|
        ≤ 500 ∧
      (generateMockPrediction koramangalaRequest halfRand).coordinates =
        { latitude := 12.9349, longitude := 77.6175 } := by
  have h3 : (0 : ℚ) ≤ halfRand.rPrice := by norm_num [halfRand]
  have h4 : halfRand.rPrice ≤ 1 := by norm_num [halfRand]
  obtain ⟨ha, hb⟩ := (mock_price_formula koramangalaRequest halfRand h3 h4).2 rfl rfl rfl
  exact ⟨h3, h4, rfl, rfl, rfl, ha, hb⟩

/-- C5: `total_estimated_price` is the two-decimal rounding of the
unrounded price-per-sqft times `total_sqft`, and therefore matches
`predicted_price_per_sqft * total_sqft` only up to `(1 + total_sqft)/200`
(the rounding of the factor is amplified by `total_sqft`). -/
theorem mock_total_price_rounding (formData : PredictionRequest) (rnd : MockRand)
    (hsq : 0 < formData.total_sqft) :
    (generateMockPrediction formData rnd).total_estimated_price =
        round2 (mockPricePerSqft formData rnd.rPrice * formData.total_sqft) ∧
      |(generateMockPrediction formData rnd).total_estimated_price -
          (generateMockPrediction formData rnd).predicted_price_per_sqft *
            formData.total_sqft| ≤
        (1 + formData.total_sqft) / 200 := by
  refine ⟨rfl, ?_⟩
  have h1 := abs_le.mp (abs_round2_sub (mockPricePerSqft formData rnd.rPrice *
    formData.total_sqft))
  have h2 := abs_le.mp (abs_round2_sub (mockPricePerSqft formData rnd.rPrice))
  have h2a := mul_le_mul_of_nonneg_right h2.2 (le_of_lt hsq)
  have h2b := mul_le_mul_of_nonneg_right h2.1 (le_of_lt hsq)
  show |round2 (mockPricePerSqft formData rnd.rPrice * formData.total_sqft) -
      round2 (mockPricePerSqft formData rnd.rPrice) * formData.total_sqft| ≤
    (1 + formData.total_sqft) / 200
  rw [abs_le]
  constructor <;> nlinarith [h1.1, h1.2, h2a, h2b, hsq]

/-- Witness for C5 at the worked example request and midpoint draws. -/
theorem mock_total_price_rounding_witness :
    (0 : ℚ) < koramangalaRequest.total_sqft ∧
      (generateMockPrediction koramangalaRequest halfRand).total_estimated_price =
        round2 (mockPricePerSqft koramangalaRequest halfRand.rPrice *
          koramangalaRequest.total_sqft) ∧
      |(generateMockPrediction koramangalaRequest halfRand).total_estimated_price -
          (generateMockPrediction koramangalaRequest halfRand).predicted_price_per_sqft *
            koramangalaRequest.total_sqft| ≤
        (1 + koramangalaRequest.total_sqft) / 200 := by
  have h1 : (0 : ℚ) < koramangalaRequest.total_sqft := by norm_num [koramangalaRequest]
  obtain ⟨ha, hb⟩ := mock_total_price_rounding koramangalaRequest halfRand h1
  exact ⟨h1, ha, hb⟩

lemma mkComparable_bounds (coords : ℚ × ℚ) (bhk : ℤ) (name : String) (r : CompRand)
    (h : CompRandInRange r) :
    (mkComparable coords bhk name r).bhk = bhk ∧
      (1000 : ℚ) ≤ (mkComparable coords bhk name r).total_sqft ∧
      (mkComparable coords bhk name r).total_sqft ≤ 2000 ∧
      (5000 : ℚ) ≤ (mkComparable coords bhk name r).price_per_sqft ∧
      (mkComparable coords bhk name r).price_per_sqft ≤ 8000 ∧
      (1/2 : ℚ) ≤ (mkComparable coords bhk name r).distance_km ∧
      (mkComparable coords bhk name r).distance_km ≤ 5/2 ∧
      (∃ k : ℤ, (mkComparable coords bhk name r).distance_km = (k : ℚ) / 10) ∧
      |(mkComparable coords bhk name r).latitude - coords.1| ≤ 1/100 ∧
      |(mkComparable coords bhk name r).longitude - coords.2| ≤ 1/100 := by
  obtain ⟨h1, h2, h3, h4, h5, h6, h7, h8, h9, h10⟩ := h
  refine ⟨rfl, ?_, ?_, ?_, ?_, ?_, ?_, ⟨round ((0.5 + r.rDist * 2) * 10), rfl⟩, ?_, ?_⟩
  · show (1000 : ℚ) ≤ 1000 + ((round (r.rSqft * 1000) : ℤ) : ℚ)
    have hq : (0 : ℤ) ≤ round (r.rSqft * 1000) :=
      intCast_le_round (by push_cast; nlinarith [h1])
    have hc : ((0 : ℤ) : ℚ) ≤ ((round (r.rSqft * 1000) : ℤ) : ℚ) := by exact_mod_cast hq
    push_cast at hc
    linarith
  · show 1000 + ((round (r.rSqft * 1000) : ℤ) : ℚ) ≤ 2000
    have hq : round (r.rSqft * 1000) ≤ (1000 : ℤ) :=
      round_le_intCast (by push_cast; nlinarith [h2])
    have hc : ((round (r.rSqft * 1000) : ℤ) : ℚ) ≤ ((1000 : ℤ) : ℚ) := by exact_mod_cast hq
    push_cast at hc
    linarith
  · show (5000 : ℚ) ≤ 5000 + ((round (r.rPrice * 3000) : ℤ) : ℚ)
    have hq : (0 : ℤ) ≤ round (r.rPrice * 3000) :=
      intCast_le_round (by push_cast; nlinarith [h3])
    have hc : ((0 : ℤ) : ℚ) ≤ ((round (r.rPrice * 3000) : ℤ) : ℚ) := by exact_mod_cast hq
    push_cast at hc
    linarith
  · show 5000 + ((round (r.rPrice * 3000) : ℤ) : ℚ) ≤ 8000
    have hq : round (r.rPrice * 3000) ≤ (3000 : ℤ) :=
      round_le_intCast (by push_cast; nlinarith [h4])
    have hc : ((round (r.rPrice * 3000) : ℤ) : ℚ) ≤ ((3000 : ℤ) : ℚ) := by exact_mod_cast hq
    push_cast at hc
    linarith
  · show (1/2 : ℚ) ≤ ((round ((0.5 + r.rDist * 2) * 10) : ℤ) : ℚ) / 10
    have hq : (5 : ℤ) ≤ round ((0.5 + r.rDist * 2) * 10) :=
      intCast_le_round (by push_cast; nlinarith [h5])
    have hc : ((5 : ℤ) : ℚ) ≤ ((round ((0.5 + r.rDist * 2) * 10) : ℤ) : ℚ) := by
      exact_mod_cast hq
    push_cast at hc
    linarith
  · show ((round ((0.5 + r.rDist * 2) * 10) : ℤ) : ℚ) / 10 ≤ 5/2
    have hq : round ((0.5 + r.rDist * 2) * 10) ≤ (25 : ℤ) :=
      round_le_intCast (by push_cast; nlinarith [h6])
    have hc : ((round ((0.5 + r.rDist * 2) * 10) : ℤ) : ℚ) ≤ ((25 : ℤ) : ℚ) := by
      exact_mod_cast hq
    push_cast at hc
    linarith
  · show |coords.1 + (r.rLat - 0.5) * 0.02 - coords.1| ≤ 1/100
    rw [abs_le]
    constructor <;> nlinarith [h7, h8]
  · show |coords.2 + (r.rLng - 0.5) * 0.02 - coords.2| ≤ 1/100
    rw [abs_le]
    constructor <;> nlinarith [h9, h10]

/-- C4: the mock comparables list has length exactly 4, is sorted
ascending by `distance_km`, and every entry carries the request `bhk`,
`total_sqft` in [1000, 2000], `price_per_sqft` in [5000, 8000],
`distance_km` in [0.5, 2.5] with one decimal place, and coordinates
within 0.01 degrees of the resolved location. -/
theorem mock_comparables_spec (coords : ℚ × ℚ) (bhk : ℤ) (rs : Fin 4 → CompRand)
    (h : ∀ i, CompRandInRange (rs i)) :
    (generateMockComparables coords bhk rs).length = 4 ∧
      (generateMockComparables coords bhk rs).Pairwise
        (fun a b => a.distance_km ≤ b.distance_km) ∧
      ∀ c ∈ generateMockComparables coords bhk rs,
        c.bhk = bhk ∧ (1000 : ℚ) ≤ c.total_sqft ∧ c.total_sqft ≤ 2000 ∧
          (5000 : ℚ) ≤ c.price_per_sqft ∧ c.price_per_sqft ≤ 8000 ∧
          (1/2 : ℚ) ≤ c.distance_km ∧ c.distance_km ≤ 5/2 ∧
          (∃ k : ℤ, c.distance_km = (k : ℚ) / 10) ∧
          |c.latitude - coords.1| ≤ 1/100 ∧ |c.longitude - coords.2| ≤ 1/100 := by
  refine ⟨?_, ?_, ?_⟩
  · simp [generateMockComparables]
  · have htrans : ∀ a b c : Comparable,
        (fun a b : Comparable => decide (a.distance_km ≤ b.distance_km)) a b = true →
        (fun a b : Comparable => decide (a.distance_km ≤ b.distance_km)) b c = true →
        (fun a b : Comparable => decide (a.distance_km ≤ b.distance_km)) a c = true := by
      intro a b c hab hbc
      simp only [decide_eq_true_eq] at hab hbc ⊢
      exact le_trans hab hbc
    have htotal : ∀ a b : Comparable,
        ((fun a b : Comparable => decide (a.distance_km ≤ b.distance_km)) a b ||
          (fun a b : Comparable => decide (a.distance_km ≤ b.distance_km)) b a) = true := by
      intro a b
      simp only [Bool.or_eq_true, decide_eq_true_eq]
      exact le_total a.distance_km b.distance_km
    have hs := List.sorted_mergeSort htrans htotal
      ((List.finRange 4).map fun i => mkComparable coords bhk (compLocations.getD i.val "") (rs i))
    exact hs.imp fun hab => of_decide_eq_true hab
  · intro c hc
    unfold generateMockComparables at hc
    rw [List.mem_mergeSort] at hc
    obtain ⟨i, _, rfl⟩ := List.mem_map.mp hc
    exact mkComparable_bounds coords bhk _ (rs i) (h i)

/-- Witness for C4 at the resolved Koramangala coordinate, the example
request bhk, and midpoint draws. -/
theorem mock_comparables_spec_witness :
    (∀ i : Fin 4, CompRandInRange ((fun _ => halfComp) i)) ∧
      (generateMockComparables (12.9349, 77.6175) 3 fun _ => halfComp).length = 4 ∧
      (generateMockComparables (12.9349, 77.6175) 3 fun _ => halfComp).Pairwise
        (fun a b => a.distance_km ≤ b.distance_km) ∧
      ∀ c ∈ generateMockComparables (12.9349, 77.6175) 3 fun _ => halfComp,
        c.bhk = 3 ∧ (1000 : ℚ) ≤ c.total_sqft ∧ c.total_sqft ≤ 2000 ∧
          (5000 : ℚ) ≤ c.price_per_sqft ∧ c.price_per_sqft ≤ 8000 ∧
          (1/2 : ℚ) ≤ c.distance_km ∧ c.distance_km ≤ 5/2 ∧
          (∃ k : ℤ, c.distance_km = (k : ℚ) / 10) ∧
          |c.latitude - (12.9349 : ℚ)| ≤ 1/100 ∧ |c.longitude - (77.6175 : ℚ)| ≤ 1/100 := by
  have hr : ∀ i : Fin 4, CompRandInRange ((fun _ => halfComp) i) := by
    intro i
    refine ⟨?_, ?_, ?_, ?_, ?_, ?_, ?_, ?_, ?_, ?_⟩ <;> norm_num [halfComp]
  exact ⟨hr, mock_comparables_spec (12.9349, 77.6175) 3 (fun _ => halfComp) hr⟩

/-- C6: location matching is case-insensitive and substring-based in both
directions, first table entry winning: the queries "whitefield" and
"Whitefield Main" both resolve to the Whitefield coordinate
`[12.9698, 77.7500]`, whatever the fallback draws are. -/
theorem location_match_case_insensitive (r1 r2 r1' r2' : ℚ) :
    getMockCoordinates "whitefield" r1 r2 = getMockCoordinates "Whitefield Main" r1' r2' ∧
      getMockCoordinates "whitefield" r1 r2 = (12.9698, 77.7500) := ⟨rfl, rfl⟩

/-- C7: any query that matches no table entry still yields a coordinate,
namely the city center `[12.9716, 77.5946]` plus a jitter of at most
0.075 degrees in each component. -/
theorem unknown_location_fallback_center (loc : String) (r1 r2 : ℚ)
    (hnone : resolveLocation loc = none) (h1 : 0 ≤ r1) (h2 : r1 ≤ 1) (h3 : 0 ≤ r2)
    (h4 : r2 ≤ 1) :
    |(getMockCoordinates loc r1 r2).1 - 12.9716| ≤ 0.075 ∧
      |(getMockCoordinates loc r1 r2).2 - 77.5946| ≤ 0.075 := by
  unfold getMockCoordinates
  rw [hnone]
  constructor
  · show |12.9716 + (r1 - 0.5) * 0.15 - 12.9716| ≤ 0.075
    rw [abs_le]
    constructor <;> nlinarith [h1, h2]
  · show |77.5946 + (r2 - 0.5) * 0.15 - 77.5946| ≤ 0.075
    rw [abs_le]
    constructor <;> nlinarith [h3, h4]

/-- Witness for C7 at a concrete unmatched location string. -/
theorem unknown_location_fallback_center_witness :
    resolveLocation "zzz" = none ∧
      |(getMockCoordinates "zzz" (1/2) (1/2)).1 - 12.9716| ≤ 0.075 ∧
      |(getMockCoordinates "zzz" (1/2) (1/2)).2 - 77.5946| ≤ 0.075 :=
  ⟨rfl, unknown_location_fallback_center "zzz" (1/2) (1/2) rfl (by norm_num) (by norm_num)
    (by norm_num) (by norm_num)⟩

lemma whitefield_lower : jsToLower "Whitefield" = "whitefield" := rfl

/-- C10: every query whose lowercasing is a substring of "whitefield" —
the empty string included, since every key contains the empty string —
resolves to the first table entry `[12.9698, 77.7500]` instead of the
city-center fallback; in particular the empty string never lands within
0.075 degrees longitude of the city center. -/
theorem empty_location_matches_first_entry :
    (∀ s : String, jsIncludes "whitefield" (jsToLower s) = true →
      ∀ r1 r2 : ℚ, getMockCoordinates s r1 r2 = (12.9698, 77.7500)) ∧
      (∀ r1 r2 : ℚ, getMockCoordinates "" r1 r2 = (12.9698, 77.7500) ∧
        ¬ |(getMockCoordinates "" r1 r2).2 - 77.5946| ≤ 0.075) := by
  constructor
  · intro s hs r1 r2
    have hres : resolveLocation s = some (12.9698, 77.7500) := by
      have hkey : jsIncludes (jsToLower "Whitefield") (jsToLower s) = true := by
        rw [whitefield_lower]
        exact hs
      simp [resolveLocation, locationMap, hkey]
    simp [getMockCoordinates, hres]
  · intro r1 r2
    refine ⟨rfl, ?_⟩
    show ¬ |(77.7500 : ℚ) - 77.5946| ≤ 0.075
    have habs : |(77.7500 : ℚ) - 77.5946| = 77.7500 - 77.5946 := abs_of_pos (by norm_num)
    rw [habs]
    norm_num

/-- Witness for C10 at a concrete proper substring of "whitefield". -/
theorem empty_location_matches_first_entry_witness :
    jsIncludes "whitefield" (jsToLower "field") = true ∧
      getMockCoordinates "field" (1/2) (1/2) = (12.9698, 77.7500) :=
  ⟨rfl, empty_location_matches_first_entry.1 "field" rfl (1/2) (1/2)⟩
